import Mathlib

/-!
Shallow embedding of the statistics-accumulation core of the `stats_alloc`
repository (branch with `src/summary.rs`, `src/accum/*`, `src/region.rs`,
`src/global_alloc/instrumented.rs`).

Machine integers: `usize` and `isize` are modelled as `Nat` bit patterns
reduced modulo `W = 2^64`; release-build Rust arithmetic (wrapping on
overflow) is the base semantics.  A separate checked model
(`Summary.reallocateDbg`) captures debug-build semantics of
`Summary::reallocate`, where `+` and `+=` abort on overflow and
`debug_assert!` aborts when its condition is false; `none` means the
operation aborted.  `Instant` is modelled as a `Nat` tick count and
`Duration` subtraction as truncated `Nat` subtraction.
-/

/-- `2^64`, the modulus of `usize`/`isize` arithmetic (64-bit target). -/
def W : Nat := 18446744073709551616

/-- `2^63`, the boundary between nonnegative and negative `isize` patterns. -/
def halfW : Nat := 9223372036854775808

/-- Wrapping `usize` addition (release-build `+=`). -/
def wadd (a b : Nat) : Nat := (a + b) % W

/-- Wrapping `usize` subtraction, `a.wrapping_sub(b)` / release-build `-=`. -/
def wsub (a b : Nat) : Nat := (a % W + (W - b % W)) % W

/-- Reinterpret a `usize` bit pattern as the `isize` it denotes. -/
def toIsize (x : Nat) : Int := if x % W < halfW then (x % W : Int) else (x % W : Int) - (W : Int)

/-- `src/summary.rs`: the six-counter `Summary` struct.  `bytes_reallocated`
is an `isize` stored here as its 64-bit two's-complement bit pattern. -/
structure Summary where
  allocations : Nat
  deallocations : Nat
  reallocations : Nat
  bytes_allocated : Nat
  bytes_deallocated : Nat
  bytes_reallocated : Nat
  deriving Repr, DecidableEq

namespace Summary

/-- `Summary::new`: all counters zero. -/
def new : Summary := ⟨0, 0, 0, 0, 0, 0⟩

/-- `Summary::reset`: `*self = Self::new()`. -/
def reset (_s : Summary) : Summary := new

/-- `Summary::total_bytes_allocated`. -/
def total_bytes_allocated (s : Summary) : Nat := s.bytes_allocated

/-- `Summary::outstanding_bytes_allocated`:
`bytes_allocated.wrapping_sub(bytes_deallocated) as isize`. -/
def outstanding_bytes_allocated (s : Summary) : Int :=
  toIsize (wsub s.bytes_allocated s.bytes_deallocated)

/-- `Summary::allocate`: `allocations += 1; bytes_allocated += size`. -/
def allocate (s : Summary) (size : Nat) : Summary :=
  { s with
    allocations := wadd s.allocations 1
    bytes_allocated := wadd s.bytes_allocated size }

/-- `Summary::deallocate`: `deallocations += 1; bytes_deallocated += size`. -/
def deallocate (s : Summary) (size : Nat) : Summary :=
  { s with
    deallocations := wadd s.deallocations 1
    bytes_deallocated := wadd s.bytes_deallocated size }

/-- `Summary::reallocate`, release-build semantics.
`let (change, net_deallocate) = new_size.overflowing_sub(old_size)`:
`change` is the wrapped difference and `net_deallocate` the borrow flag.
The branch then does `bytes_deallocated += change` (resp.
`bytes_allocated += change`), and finally
`bytes_reallocated += change as isize` (bit-pattern-preserving cast, so a
wrapping add of the same pattern). -/
def reallocate (s : Summary) (old_size new_size : Nat) : Summary :=
  let change := wsub new_size old_size
  let net_deallocate := new_size % W < old_size % W
  { s with
    reallocations := wadd s.reallocations 1
    bytes_deallocated :=
      if net_deallocate then wadd s.bytes_deallocated change else s.bytes_deallocated
    bytes_allocated :=
      if net_deallocate then s.bytes_allocated else wadd s.bytes_allocated change
    bytes_reallocated := wadd s.bytes_reallocated change }

/-- Debug-build checked `usize` addition: aborts (`none`) on overflow. -/
def dbgAdd (a b : Nat) : Option Nat := if a + b < W then some (a + b) else none

/-- Debug-build checked `isize` addition on bit patterns: aborts when the
signed sum leaves the `isize` range, else wraps identically to the
bit-pattern sum. -/
def dbgAddSigned (a b : Nat) : Option Nat :=
  if -(halfW : Int) ≤ toIsize a + toIsize b ∧ toIsize a + toIsize b < (halfW : Int) then
    some (wadd a b)
  else none

/-- `Summary::reallocate`, debug-build semantics: every `+` and `+=` is
overflow-checked (abort on overflow), and each
`debug_assert!(change + field > field)` first evaluates its checked sum and
then aborts if the comparison is false.  `none` models the abort. -/
def reallocateDbg (s : Summary) (old_size new_size : Nat) : Option Summary :=
  let change := wsub new_size old_size
  let net_deallocate := new_size % W < old_size % W
  do
    let reallocs ← dbgAdd s.reallocations 1
    if net_deallocate then
      let assertSum ← dbgAdd change s.bytes_deallocated
      if assertSum > s.bytes_deallocated then
        let bd ← dbgAdd s.bytes_deallocated change
        let br ← dbgAddSigned s.bytes_reallocated change
        some { s with reallocations := reallocs, bytes_deallocated := bd,
                      bytes_reallocated := br }
      else none
    else
      let assertSum ← dbgAdd change s.bytes_allocated
      if assertSum > s.bytes_allocated then
        let ba ← dbgAdd s.bytes_allocated change
        let br ← dbgAddSigned s.bytes_reallocated change
        some { s with reallocations := reallocs, bytes_allocated := ba,
                      bytes_reallocated := br }
      else none

/-- `impl ops::Add for Summary` (via `AddAssign`): field-wise addition. -/
def add (a b : Summary) : Summary :=
  ⟨wadd a.allocations b.allocations,
   wadd a.deallocations b.deallocations,
   wadd a.reallocations b.reallocations,
   wadd a.bytes_allocated b.bytes_allocated,
   wadd a.bytes_deallocated b.bytes_deallocated,
   wadd a.bytes_reallocated b.bytes_reallocated⟩

/-- `impl ops::Sub for Summary` (via `SubAssign`): field-wise subtraction. -/
def sub (a b : Summary) : Summary :=
  ⟨wsub a.allocations b.allocations,
   wsub a.deallocations b.deallocations,
   wsub a.reallocations b.reallocations,
   wsub a.bytes_allocated b.bytes_allocated,
   wsub a.bytes_deallocated b.bytes_deallocated,
   wsub a.bytes_reallocated b.bytes_reallocated⟩

/-- A `Summary` whose fields are genuine `usize`/`isize` bit patterns
(every value representable in Rust satisfies this). -/
def Wf (s : Summary) : Prop :=
  s.allocations < W ∧ s.deallocations < W ∧ s.reallocations < W ∧
  s.bytes_allocated < W ∧ s.bytes_deallocated < W ∧ s.bytes_reallocated < W

instance : DecidablePred Wf := fun s => by unfold Wf; infer_instance

end Summary

/-! ## The accumulation state machine: Rollup, Reporter, ThreadStats -/

/-- Rollup identity (`src/accum/rollup.rs`): there may be several `Rollup`
instances; identity matters, so each is an id holding its `Summary` in the
system state.  A `Rollup`'s `merge` adds a delta into the held `Summary`
(addressed here through `AccumState.rollups`). -/
abbrev RollupId := Nat

/-- `Rollup::global()`: the process-wide default `Rollup`
(`GLOBAL_ALLOC_STATS`), given the distinguished id `0`. -/
def globalRollup : RollupId := 0

/-- `src/accum/reporter.rs`: the closed set of reporter policies.
`Duration` and `Instant` are `Nat` tick counts. -/
inductive Reporter where
  | neverReport : Reporter
  | alwaysReport : Reporter
  | intervalReport (interval : Nat) : Reporter
  | localIntervalReport (interval : Nat) (target : RollupId) : Reporter
  | localAlwaysReport (target : RollupId) : Reporter
  deriving Repr, DecidableEq

/-- Each reporter's `rollup()` method: the trait default returns
`Rollup::global()`; `IntervalReport` overrides with the same; the two local
variants return their named target. -/
def Reporter.rollupOf : Reporter → RollupId
  | .neverReport => globalRollup
  | .alwaysReport => globalRollup
  | .intervalReport _ => globalRollup
  | .localIntervalReport _ target => target
  | .localAlwaysReport target => target

/-- `src/accum/thread_local.rs`: the per-thread `ThreadStats` record.
`stats` is the active (unflushed) `Summary`; `last_updated` the optional
last-flush `Instant`; `thread_total` the sum of everything already flushed;
`reporter` the optional thread-level policy override. -/
structure ThreadStats where
  stats : Summary
  last_updated : Option Nat
  thread_total : Summary
  reporter : Option Reporter
  deriving Repr, DecidableEq

/-- The state the claims observe: the calling thread's `ThreadStats`
together with the contents of every `Rollup` (by id). -/
structure AccumState where
  ts : ThreadStats
  rollups : RollupId → Summary

/-- `ThreadStats::set_last_updated`. -/
def setLastUpdated (st : AccumState) (now : Nat) : AccumState :=
  { st with ts := { st.ts with last_updated := some now } }

/-- `ThreadStats::flush_to(rollup)`: `rollup.merge(&self.stats)`, then
`self.thread_total += self.stats`, then `self.stats.reset()`. -/
def AccumState.flush_to (st : AccumState) (r : RollupId) : AccumState :=
  { ts := { st.ts with
              thread_total := st.ts.thread_total.add st.ts.stats
              stats := st.ts.stats.reset }
    rollups := fun i => if i = r then (st.rollups i).add st.ts.stats else st.rollups i }

/-- The rollup a thread's flush goes to: the explicit reporter's `rollup()`
when one is set, else `Rollup::global()` (the `if let Some(reporter)`
dispatch in `ThreadStats::flush` and in `Drop for ThreadStats`). -/
def inEffectRollup : Option Reporter → RollupId
  | some r => r.rollupOf
  | none => globalRollup

/-- Each reporter's `report` method, with `Instant::now()` passed in as
`now`.  Mirrors `src/accum/reporter.rs` case by case; note that
`LocalIntervalReport::report` on trigger calls `flush_to` twice, first on
the named target and then on `Rollup::global()`. -/
def Reporter.report (rep : Reporter) (now : Nat) (st : AccumState) : AccumState :=
  match rep with
  | .neverReport => st
  | .alwaysReport => st.flush_to globalRollup
  | .intervalReport d =>
    match st.ts.last_updated with
    | some lu => if now - lu > d then setLastUpdated (st.flush_to globalRollup) now else st
    | none => setLastUpdated st now
  | .localIntervalReport d target =>
    match st.ts.last_updated with
    | some lu =>
      if now - lu > d then
        setLastUpdated ((st.flush_to target).flush_to globalRollup) now
      else st
    | none => setLastUpdated st now
  | .localAlwaysReport target => st.flush_to target

/-- `ThreadStats::flush`: samples `now`, flushes to the in-effect rollup,
then records `now` as the last-updated instant. -/
def ThreadStats.flushNow (now : Nat) (st : AccumState) : AccumState :=
  setLastUpdated (st.flush_to (inEffectRollup st.ts.reporter)) now

/-- `impl Drop for ThreadStats`: the unconditional final flush at thread
teardown, to the explicit reporter's `rollup()` if set, else to
`Rollup::global()`.  It does not touch `last_updated`. -/
def ThreadStats.dropFlush (st : AccumState) : AccumState :=
  st.flush_to (inEffectRollup st.ts.reporter)

/-- `ThreadStats::summary()`: `self.stats + self.thread_total`, a pure read. -/
def ThreadStats.summaryOf (ts : ThreadStats) : Summary :=
  ts.stats.add ts.thread_total

/-- `ThreadStats::report`: dispatch to the thread's own reporter when set,
else to the allocator's default reporter. -/
def ThreadStats.reportWith (defaultRep : Reporter) (now : Nat) (st : AccumState) : AccumState :=
  (match st.ts.reporter with
   | some r => r
   | none => defaultRep).report now st

/-- `ThreadStats::alloc` (success path of `try_with`): record the
allocation on the active `Summary`, then invoke the in-effect reporter. -/
def ThreadStats.allocEvent (size : Nat) (defaultRep : Reporter) (now : Nat)
    (st : AccumState) : AccumState :=
  ThreadStats.reportWith defaultRep now
    { st with ts := { st.ts with stats := st.ts.stats.allocate size } }

/-- `ThreadStats::dealloc` (success path of `try_with`). -/
def ThreadStats.deallocEvent (size : Nat) (defaultRep : Reporter) (now : Nat)
    (st : AccumState) : AccumState :=
  ThreadStats.reportWith defaultRep now
    { st with ts := { st.ts with stats := st.ts.stats.deallocate size } }

/-- `ThreadStats::realloc` (success path of `try_with`). -/
def ThreadStats.reallocEvent (oldSize newSize : Nat) (defaultRep : Reporter) (now : Nat)
    (st : AccumState) : AccumState :=
  ThreadStats.reportWith defaultRep now
    { st with ts := { st.ts with stats := st.ts.stats.reallocate oldSize newSize } }

/-! ## Instrumented allocator (statistics side) and Region -/

/-- `Instrumented::alloc` (`src/global_alloc/instrumented.rs`), statistics
side: `ThreadStats::alloc(layout, &self.default_reporter)` with
`layout.size()` as the size; the delegation to the wrapped allocator does
not touch the statistics state. -/
def Instrumented.allocStats (layoutSize : Nat) (defaultRep : Reporter) (now : Nat)
    (st : AccumState) : AccumState :=
  ThreadStats.allocEvent layoutSize defaultRep now st

/-- `Instrumented::alloc_zeroed`, statistics side: the body likewise calls
`ThreadStats::alloc(layout, &self.default_reporter)` before delegating to
`inner.alloc_zeroed`. -/
def Instrumented.allocZeroedStats (layoutSize : Nat) (defaultRep : Reporter) (now : Nat)
    (st : AccumState) : AccumState :=
  ThreadStats.allocEvent layoutSize defaultRep now st

/-- `src/region.rs`: a `Region` holds the creating thread's cumulative
`Summary` captured at creation. -/
structure Region where
  initial_stats : Summary
  deriving Repr, DecidableEq

/-- `Region::new` on a thread whose `ThreadStats` is `ts`. -/
def Region.new (ts : ThreadStats) : Region :=
  ⟨ThreadStats.summaryOf ts⟩

/-- `Region::initial`. -/
def Region.initial (r : Region) : Summary := r.initial_stats

/-- `Region::change` evaluated while the thread's `ThreadStats` is `ts`:
`ThreadStats::summary() - self.initial_stats`. -/
def Region.change (r : Region) (ts : ThreadStats) : Summary :=
  (ThreadStats.summaryOf ts).sub r.initial_stats

/-! ## Helper lemmas on wrapping arithmetic and Summary algebra -/

theorem wadd_assoc (a b c : Nat) : wadd (wadd a b) c = wadd a (wadd b c) := by
  simp only [wadd, W]; omega

theorem wadd_comm (a b : Nat) : wadd a b = wadd b a := by
  simp only [wadd, Nat.add_comm]

theorem summary_new_add (a b : Summary) : Summary.new.add (a.add b) = b.add a := by
  obtain ⟨a1, a2, a3, a4, a5, a6⟩ := a
  obtain ⟨b1, b2, b3, b4, b5, b6⟩ := b
  simp only [Summary.new, Summary.add, Summary.mk.injEq, wadd, W]
  refine ⟨?_, ?_, ?_, ?_, ?_, ?_⟩ <;> omega

theorem summary_add_sub_self (a b : Summary) :
    (a.add b).sub (a.add b) = Summary.new := by
  obtain ⟨a1, a2, a3, a4, a5, a6⟩ := a
  obtain ⟨b1, b2, b3, b4, b5, b6⟩ := b
  simp only [Summary.new, Summary.add, Summary.sub, Summary.mk.injEq, wadd, wsub, W]
  refine ⟨?_, ?_, ?_, ?_, ?_, ?_⟩ <;> omega

/-! ## Concrete states used by the claim theorems -/

/-- A one-allocation, 1024-byte active `Summary`. -/
def sEvt : Summary := Summary.new.allocate 1024

/-- Thread state for the Local-IntervalElapsed scenario: active `Summary`
`sEvt`, last flush at tick 0, thread reporter
`LocalIntervalReport { interval := 1, rollup := #1 }`, all rollups empty. -/
def stC3 : AccumState :=
  { ts := { stats := sEvt, last_updated := some 0, thread_total := Summary.new,
            reporter := some (.localIntervalReport 1 1) }
    rollups := fun _ => Summary.new }

/-- Thread state for the teardown witness: 1024 bytes unflushed, thread
reporter `NeverReport`, all rollups empty. -/
def stC4 : AccumState :=
  { ts := { stats := Summary.new.allocate 1024, last_updated := none,
            thread_total := Summary.new, reporter := some .neverReport }
    rollups := fun _ => Summary.new }

/-- Thread state for the flush witness: 5 bytes unflushed, thread reporter
`LocalAlwaysReport(#2)`, all rollups empty. -/
def stC5 : AccumState :=
  { ts := { stats := Summary.new.allocate 5, last_updated := none,
            thread_total := Summary.new, reporter := some (.localAlwaysReport 2) }
    rollups := fun _ => Summary.new }

/-- Thread state with no prior flush timestamp and no thread reporter. -/
def stC7a : AccumState :=
  { ts := { stats := Summary.new.allocate 16, last_updated := none,
            thread_total := Summary.new, reporter := none }
    rollups := fun _ => Summary.new }

/-- Thread state whose last flush timestamp is tick 0. -/
def stC7b : AccumState :=
  { ts := { stats := Summary.new.allocate 16, last_updated := some 0,
            thread_total := Summary.new, reporter := none }
    rollups := fun _ => Summary.new }

/-! ## Claim theorems -/

/-- C1: evaluation of `Summary::reallocate` at the spec's shrinking
scenario (old_size 100, new_size 60) on a fresh `Summary`.  The
reallocation counter becomes 1, `bytes_allocated` stays 0 and the signed
`bytes_reallocated` delta is -40 as the claim says, but `bytes_deallocated`
becomes the wrapped two's-complement pattern `2^64 - 40`, not the magnitude
40 the claim requires: the code adds the wrapped difference
`new_size.overflowing_sub(old_size).0` itself instead of its negation. -/
theorem c1_reallocate_shrink_eval :
    (Summary.new.reallocate 100 60).reallocations = 1 ∧
    (Summary.new.reallocate 100 60).bytes_allocated = 0 ∧
    (Summary.new.reallocate 100 60).bytes_deallocated = W - 40 ∧
    toIsize (Summary.new.reallocate 100 60).bytes_reallocated = -40 ∧
    W - 40 ≠ 40 := by decide

/-- C2: in debug-build semantics `Summary::reallocate` can abort merely
because `new_size < old_size`: starting from the state reached by
`deallocate(100)` (so `bytes_deallocated = 100`), `reallocate(100, 60)`
aborts — the `debug_assert!` expression `change + bytes_deallocated`
overflows because `change` is the wrapped `2^64 - 40`, even though the
intended accumulator value `100 + 40` is far below `2^64`.  Moreover a
same-size reallocation (`change = 0`) always fails the assertion
`change + bytes_allocated > bytes_allocated`. -/
theorem c2_reallocate_dbg_aborts :
    (Summary.new.deallocate 100).bytes_deallocated = 100 ∧
    Summary.reallocateDbg (Summary.new.deallocate 100) 100 60 = none ∧
    (Summary.new.deallocate 100).bytes_deallocated + (100 - 60) < W ∧
    Summary.reallocateDbg Summary.new 100 100 = none := by decide

/-- C3: evaluation of `LocalIntervalReport::report` at a triggering event
(interval 1, last flush at tick 0, event at tick 10) with a nonzero active
`Summary` `sEvt`.  The named target rollup #1 receives `sEvt`, but the
process default `Rollup` is left unchanged: the first `flush_to` resets the
active `Summary`, so the second `flush_to(Rollup::global())` merges only
zeros — the default `Rollup` does not receive the events, contrary to the
claim. -/
theorem c3_local_interval_default_rollup_unchanged :
    (Reporter.report (.localIntervalReport 1 1) 10 stC3).rollups 1 = sEvt ∧
    (Reporter.report (.localIntervalReport 1 1) 10 stC3).rollups globalRollup = Summary.new ∧
    (Reporter.report (.localIntervalReport 1 1) 10 stC3).ts.stats = Summary.new ∧
    (Reporter.report (.localIntervalReport 1 1) 10 stC3).ts.thread_total = sEvt ∧
    (Reporter.report (.localIntervalReport 1 1) 10 stC3).ts.last_updated = some 10 ∧
    sEvt ≠ Summary.new := by decide

/-- C4: `Drop for ThreadStats` unconditionally flushes the remaining active
`Summary` to the in-effect rollup (the explicit reporter's `rollup()` if
set, else the process default), for every state and hence every configured
reporter variant including `NeverReport`: that rollup gains exactly the
active `Summary`, the active `Summary` is reset, the drained amount moves
into `thread_total`, and no other rollup changes. -/
theorem c4_drop_flush (st : AccumState) :
    (ThreadStats.dropFlush st).rollups (inEffectRollup st.ts.reporter) =
      (st.rollups (inEffectRollup st.ts.reporter)).add st.ts.stats ∧
    (ThreadStats.dropFlush st).ts.stats = Summary.new ∧
    (ThreadStats.dropFlush st).ts.thread_total = st.ts.thread_total.add st.ts.stats ∧
    ∀ i, i ≠ inEffectRollup st.ts.reporter →
      (ThreadStats.dropFlush st).rollups i = st.rollups i := by
  refine ⟨?_, rfl, rfl, ?_⟩
  · simp [ThreadStats.dropFlush, AccumState.flush_to]
  · intro i hi
    simp [ThreadStats.dropFlush, AccumState.flush_to, hi]

/-- Witness for C4 at a concrete state whose reporter is `NeverReport`
(in-effect rollup = the process default), with rollup #7 as the untouched
bystander. -/
theorem c4_drop_flush_witness :
    (ThreadStats.dropFlush stC4).rollups (inEffectRollup stC4.ts.reporter) =
      (stC4.rollups (inEffectRollup stC4.ts.reporter)).add stC4.ts.stats ∧
    (ThreadStats.dropFlush stC4).rollups 7 = stC4.rollups 7 :=
  ⟨(c4_drop_flush stC4).1, (c4_drop_flush stC4).2.2.2 7 (by decide)⟩

/-- C5: `ThreadStats::flush` merges the active `Summary` into the in-effect
rollup (explicit reporter's target, else the process default), adds the
drained active `Summary` into `thread_total`, resets the active `Summary`,
records the sampled instant as `last_updated`, leaves the reporter in place
and touches no other rollup. -/
theorem c5_flush_spec (now : Nat) (st : AccumState) :
    (ThreadStats.flushNow now st).rollups (inEffectRollup st.ts.reporter) =
      (st.rollups (inEffectRollup st.ts.reporter)).add st.ts.stats ∧
    (ThreadStats.flushNow now st).ts.thread_total = st.ts.thread_total.add st.ts.stats ∧
    (ThreadStats.flushNow now st).ts.stats = Summary.new ∧
    (ThreadStats.flushNow now st).ts.last_updated = some now ∧
    (ThreadStats.flushNow now st).ts.reporter = st.ts.reporter ∧
    ∀ i, i ≠ inEffectRollup st.ts.reporter →
      (ThreadStats.flushNow now st).rollups i = st.rollups i := by
  refine ⟨?_, rfl, rfl, rfl, rfl, ?_⟩
  · simp [ThreadStats.flushNow, setLastUpdated, AccumState.flush_to]
  · intro i hi
    simp [ThreadStats.flushNow, setLastUpdated, AccumState.flush_to, hi]

/-- Witness for C5 at a concrete state with an explicit
`LocalAlwaysReport(#2)` reporter, with rollup #3 as the untouched
bystander. -/
theorem c5_flush_spec_witness :
    (ThreadStats.flushNow 7 stC5).rollups (inEffectRollup stC5.ts.reporter) =
      (stC5.rollups (inEffectRollup stC5.ts.reporter)).add stC5.ts.stats ∧
    (ThreadStats.flushNow 7 stC5).rollups 3 = stC5.rollups 3 :=
  ⟨(c5_flush_spec 7 stC5).1, (c5_flush_spec 7 stC5).2.2.2.2.2 3 (by decide)⟩

/-- C6: `ThreadStats::summary()` is the pure read `active + thread_total`,
and it is invariant under `ThreadStats::flush`: the cumulative view after a
flush equals the view before it, because the flush moves the active
`Summary` into `thread_total` before resetting it. -/
theorem c6_summary_flush_invariant (now : Nat) (st : AccumState) :
    (∀ ts : ThreadStats, ThreadStats.summaryOf ts = ts.stats.add ts.thread_total) ∧
    ThreadStats.summaryOf (ThreadStats.flushNow now st).ts = ThreadStats.summaryOf st.ts := by
  refine ⟨fun ts => rfl, ?_⟩
  show Summary.new.add (st.ts.thread_total.add st.ts.stats) =
    st.ts.stats.add st.ts.thread_total
  exact summary_new_add st.ts.thread_total st.ts.stats

/-- C7: `IntervalReport::report` on an allocation event: with no prior
flush timestamp it records `now` as the baseline and changes nothing else;
with a prior timestamp `lu` and `now - lu > d` it flushes to the reporter's
rollup (the process default) and records the new timestamp; with
`now - lu ≤ d` it leaves the whole state untouched. -/
theorem c7_interval_report_spec (d now : Nat) (st : AccumState) :
    (st.ts.last_updated = none →
      Reporter.report (.intervalReport d) now st = setLastUpdated st now) ∧
    (∀ lu, st.ts.last_updated = some lu → now - lu > d →
      Reporter.report (.intervalReport d) now st =
        setLastUpdated (st.flush_to ((Reporter.intervalReport d).rollupOf)) now) ∧
    (∀ lu, st.ts.last_updated = some lu → ¬ now - lu > d →
      Reporter.report (.intervalReport d) now st = st) := by
  refine ⟨?_, ?_, ?_⟩
  · intro h
    simp [Reporter.report, h]
  · intro lu h hgt
    simp [Reporter.report, Reporter.rollupOf, h, hgt]
  · intro lu h hle
    simp [Reporter.report, h, hle]

/-- Witness for C7: all three branches exercised at concrete states, with
interval 5 and events at ticks 10 (elapsed 10 > 5) and 3 (elapsed 3 ≤ 5). -/
theorem c7_interval_report_spec_witness :
    Reporter.report (.intervalReport 5) 10 stC7a = setLastUpdated stC7a 10 ∧
    Reporter.report (.intervalReport 5) 10 stC7b =
      setLastUpdated (stC7b.flush_to ((Reporter.intervalReport 5).rollupOf)) 10 ∧
    Reporter.report (.intervalReport 5) 3 stC7b = stC7b :=
  ⟨(c7_interval_report_spec 5 10 stC7a).1 rfl,
   (c7_interval_report_spec 5 10 stC7b).2.1 0 rfl (by decide),
   (c7_interval_report_spec 5 3 stC7b).2.2 0 rfl (by decide)⟩

/-- C8: `Summary` addition is field-wise, associative and commutative, and
field-wise subtraction is its additive inverse: `(a + b) - b = a` for every
`Summary` `a` whose fields are genuine 64-bit patterns (which every Rust
value is). -/
theorem c8_summary_add_algebra (a b c : Summary) :
    (a.add b).add c = a.add (b.add c) ∧
    a.add b = b.add a ∧
    (a.Wf → (a.add b).sub b = a) := by
  obtain ⟨a1, a2, a3, a4, a5, a6⟩ := a
  obtain ⟨b1, b2, b3, b4, b5, b6⟩ := b
  obtain ⟨c1, c2, c3, c4, c5, c6⟩ := c
  refine ⟨?_, ?_, fun ha => ?_⟩
  · simp only [Summary.add, Summary.mk.injEq, wadd, W]
    refine ⟨?_, ?_, ?_, ?_, ?_, ?_⟩ <;> omega
  · simp only [Summary.add, Summary.mk.injEq, wadd, W]
    refine ⟨?_, ?_, ?_, ?_, ?_, ?_⟩ <;> omega
  · simp only [Summary.Wf, W] at ha
    obtain ⟨h1, h2, h3, h4, h5, h6⟩ := ha
    simp only [Summary.add, Summary.sub, Summary.mk.injEq, wadd, wsub, W]
    refine ⟨?_, ?_, ?_, ?_, ?_, ?_⟩ <;> omega

/-- Witness for C8: the subtraction law applied at a concrete well-formed
`Summary`. -/
theorem c8_summary_add_algebra_witness :
    ((Summary.new.allocate 3).add (Summary.new.deallocate 2)).sub (Summary.new.deallocate 2) =
      Summary.new.allocate 3 :=
  (c8_summary_add_algebra (Summary.new.allocate 3) (Summary.new.deallocate 2)
    Summary.new).2.2 (by decide)

/-- C9: `Region::change` returns `ThreadStats::summary() - initial`, and
evaluated immediately after `Region::new` with no intervening allocation
event it is the zero `Summary`. -/
theorem c9_region_change (ts : ThreadStats) :
    (∀ r : Region, r.change ts = (ThreadStats.summaryOf ts).sub r.initial_stats) ∧
    (Region.new ts).change ts = Summary.new := by
  refine ⟨fun r => rfl, ?_⟩
  show (ts.stats.add ts.thread_total).sub (ts.stats.add ts.thread_total) = Summary.new
  exact summary_add_sub_self ts.stats ts.thread_total

/-- C10: for every layout size, reporter, instant and state, the
statistics side of `Instrumented::alloc_zeroed` is exactly that of
`Instrumented::alloc` (both call `ThreadStats::alloc`), and
`Summary::allocate` increments `allocations` by 1 and `bytes_allocated` by
the layout size while leaving the other four counters — there is no
separate counter for zeroed allocations — untouched. -/
theorem c10_alloc_zeroed_same_stats (layoutSize : Nat) (rep : Reporter) (now : Nat)
    (st : AccumState) (s : Summary) :
    Instrumented.allocZeroedStats layoutSize rep now st =
      Instrumented.allocStats layoutSize rep now st ∧
    (s.allocate layoutSize).allocations = wadd s.allocations 1 ∧
    (s.allocate layoutSize).bytes_allocated = wadd s.bytes_allocated layoutSize ∧
    (s.allocate layoutSize).deallocations = s.deallocations ∧
    (s.allocate layoutSize).reallocations = s.reallocations ∧
    (s.allocate layoutSize).bytes_deallocated = s.bytes_deallocated ∧
    (s.allocate layoutSize).bytes_reallocated = s.bytes_reallocated :=
  ⟨rfl, rfl, rfl, rfl, rfl, rfl, rfl⟩
